import Mathlib

/-!
Verification of the order-book synchronization engine of
`hummingbot/core/data_type/order_book_tracker.py`.

The development shallowly embeds the tracker's data model and operations:
Python dictionaries become association lists over `String` keys, `asyncio`
queues become lists of messages (front = next to be dequeued), `deque`
objects with a `maxlen` become capacity-capped lists, and the data-source
calls (`subscribe_to_trading_pair`, `get_new_order_book`,
`unsubscribe_from_trading_pair`) become explicit result parameters, with
`DsResult.err` standing for a non-cancellation exception raised by the call.
Latency values measured with `perf_counter` are modelled as rational
parameters handed to the routing steps.
-/

/-- Association-list lookup, mirroring Python `dict.__getitem__` /
`in` tests over the tracker's `Dict[str, ...]` members. -/
def mlookup {α : Type} : List (String × α) → String → Option α
  | [], _ => none
  | (k, v) :: rest, key => if k = key then some v else mlookup rest key

/-- Association-list insert-or-update, mirroring `d[key] = value`. -/
def mset {α : Type} : List (String × α) → String → α → List (String × α)
  | [], key, v => [(key, v)]
  | (k, w) :: rest, key, v =>
      if k = key then (key, v) :: rest else (k, w) :: mset rest key v

/-- Association-list removal, mirroring `d.pop(key, None)`. -/
def merase {α : Type} : List (String × α) → String → List (String × α)
  | [], _ => []
  | (k, w) :: rest, key =>
      if k = key then merase rest key else (k, w) :: merase rest key

theorem mlookup_mset_self {α : Type} (m : List (String × α)) (k : String) (v : α) :
    mlookup (mset m k v) k = some v := by
  induction m with
  | nil => simp [mset, mlookup]
  | cons p rest ih =>
      by_cases h : p.1 = k <;> simp [mset, mlookup, h, ih]

theorem mlookup_mset_ne {α : Type} (m : List (String × α)) (k k' : String) (v : α)
    (h : k' ≠ k) : mlookup (mset m k v) k' = mlookup m k' := by
  induction m with
  | nil => simp [mset, mlookup, Ne.symm h]
  | cons p rest ih =>
      by_cases hp : p.1 = k
      · simp [mset, mlookup, hp, Ne.symm h]
      · simp only [mset, hp, if_false, mlookup]
        by_cases hp' : p.1 = k' <;> simp [hp', ih]

theorem mlookup_merase_self {α : Type} (m : List (String × α)) (k : String) :
    mlookup (merase m k) k = none := by
  induction m with
  | nil => simp [merase, mlookup]
  | cons p rest ih =>
      by_cases h : p.1 = k <;> simp [merase, mlookup, h, ih]

theorem mlookup_merase_ne {α : Type} (m : List (String × α)) (k k' : String)
    (h : k' ≠ k) : mlookup (merase m k) k' = mlookup m k' := by
  induction m with
  | nil => simp [merase]
  | cons p rest ih =>
      by_cases hp : p.1 = k
      · simp [merase, mlookup, hp, Ne.symm h, ih]
      · simp only [merase, hp, if_false, mlookup]
        by_cases hp' : p.1 = k' <;> simp [hp', ih]

/-- Append on a Python `deque(maxlen := cap)`: the element goes to the back
and, if the capacity is exceeded, the oldest element is evicted from the
front. -/
def pushCapped {α : Type} (cap : Nat) (xs : List α) (x : α) : List α :=
  let ys := xs ++ [x]
  if ys.length ≤ cap then ys else ys.drop (ys.length - cap)

theorem pushCapped_length {α : Type} (cap : Nat) (xs : List α) (x : α) :
    (pushCapped cap xs x).length = min (xs.length + 1) cap := by
  unfold pushCapped
  by_cases h : xs.length + 1 ≤ cap
  · simp [h]
  · simp [h]
    omega

theorem pushCapped_of_lt {α : Type} (cap : Nat) (xs : List α) (x : α)
    (h : xs.length < cap) : pushCapped cap xs x = xs ++ [x] := by
  unfold pushCapped
  simp only [List.length_append, List.length_singleton]
  rw [if_pos (by omega)]

/-- Message kinds of `OrderBookMessageType` (DIFF / SNAPSHOT / TRADE). -/
inductive OrderBookMessageType
  | diff
  | snapshot
  | trade
deriving DecidableEq, Repr

/-- An `OrderBookMessage`: the fields of its `content` dict that the tracker
reads (`trading_pair`, `update_id`, `bids`, `asks`).  Each bid/ask delta is a
(price, size) pair with exact rational arithmetic, matching the spec's
requirement that sizes compare exactly against the zero deletion sentinel. -/
structure OrderBookMessage where
  mtype : OrderBookMessageType
  trading_pair : String
  update_id : Nat
  bids : List (ℚ × ℚ)
  asks : List (ℚ × ℚ)
deriving DecidableEq, Repr

/-- Modelled from the spec: one price level upsert of §4.1 `ApplyDiff` for the
`OrderBook` class, whose implementation is not under `src/` (only the tracker
that calls it is).  A size of zero deletes the level; any other size upserts
it, keyed by price. -/
def upsertLevel (side : List (ℚ × ℚ)) (price size : ℚ) : List (ℚ × ℚ) :=
  if size = 0 then side.filter (fun l => l.1 ≠ price)
  else if side.any (fun l => l.1 = price) then
    side.map (fun l => if l.1 = price then (price, size) else l)
  else side ++ [(price, size)]

/-- Modelled from the spec: fold a list of §4.1 price-level deltas into one
side of the book, in the order they appear in the message. -/
def applyDeltas (side : List (ℚ × ℚ)) (deltas : List (ℚ × ℚ)) : List (ℚ × ℚ) :=
  deltas.foldl (fun s d => upsertLevel s d.1 d.2) side

/-- Modelled from the spec: the §3 MarketBook (the `OrderBook` class, not
under `src/`): bid and ask price levels plus the `snapshotSequence`
watermark (`snapshot_uid` in the tracker's code). -/
structure OrderBook where
  bids : List (ℚ × ℚ)
  asks : List (ℚ × ℚ)
  snapshot_uid : Nat
deriving DecidableEq, Repr

/-- Modelled from the spec: §4.1 `ApplyDiff(bids, asks, sequenceId)` — merges
price-level deltas into the book; *no sequencing check here* (the spec makes
the caller responsible for staleness filtering), and `snapshotSequence` is
only set by `ApplySnapshot`. -/
def OrderBook.apply_diffs (book : OrderBook) (bids asks : List (ℚ × ℚ))
    (_update_id : Nat) : OrderBook :=
  { book with bids := applyDeltas book.bids bids, asks := applyDeltas book.asks asks }

/-- Modelled from the spec: §4.1 `ApplySnapshot(bids, asks, sequenceId)` —
replaces the entire book content and sets `snapshotSequence := sequenceId`. -/
def OrderBook.apply_snapshot (bids asks : List (ℚ × ℚ)) (update_id : Nat) : OrderBook :=
  { bids := bids, asks := asks, snapshot_uid := update_id }

/-- Modelled from the spec: §4.1 `RestoreFromSnapshotAndDiffs(snapshot,
recentDiffs)` — applies the snapshot, then replays in arrival order every
diff whose sequence is strictly greater than the snapshot's sequence. -/
def OrderBook.restore_from_snapshot_and_diffs (_book : OrderBook)
    (snapshot : OrderBookMessage) (past_diffs : List OrderBookMessage) : OrderBook :=
  let base := OrderBook.apply_snapshot snapshot.bids snapshot.asks snapshot.update_id
  (past_diffs.filter (fun d => snapshot.update_id < d.update_id)).foldl
    (fun b d => b.apply_diffs d.bids d.asks d.update_id) base

/-- Assoc lookup of the size stored at a price level. -/
def levelSize (side : List (ℚ × ℚ)) (price : ℚ) : Option ℚ :=
  match side.find? (fun l => l.1 = price) with
  | some l => some l.2
  | none => none

/-- `LatencyStats`: latency tracking with sampling and a rolling window.
`sample_rate` is the instance's `SAMPLE_RATE` and `window_cap` the `maxlen`
of its `_recent_samples` deque.  `min_ms = none` models the initial
`float(inf)` sentinel.  Latencies are rationals, and `count`,
`_sample_counter` and the window length are exact naturals. -/
structure LatencyStats where
  sample_rate : Nat
  window_cap : Nat
  count : Nat
  total_ms : ℚ
  min_ms : Option ℚ
  max_ms : ℚ
  recent_samples : List ℚ
  sample_counter : Nat
deriving DecidableEq, Repr

/-- A fresh `LatencyStats()` with the given sampling rate and window size
(the dataclass defaults are rate 10 and window 100). -/
def mkLatencyStats (rate window : Nat) : LatencyStats :=
  { sample_rate := rate, window_cap := window, count := 0, total_ms := 0,
    min_ms := none, max_ms := 0, recent_samples := [], sample_counter := 0 }

/-- `LatencyStats.record`: always increments `count` and the sampling
counter and updates min/max; every `SAMPLE_RATE`-th call resets the counter,
adds the approximated total and appends to the rolling window. -/
def LatencyStats.record (s : LatencyStats) (latency_ms : ℚ) : LatencyStats :=
  let count := s.count + 1
  let ctr := s.sample_counter + 1
  let min_ms := match s.min_ms with
    | none => some latency_ms
    | some m => if latency_ms < m then some latency_ms else some m
  let max_ms := if latency_ms > s.max_ms then latency_ms else s.max_ms
  if s.sample_rate ≤ ctr then
    { s with
      count := count
      sample_counter := 0
      min_ms := min_ms
      max_ms := max_ms
      total_ms := s.total_ms + latency_ms * (s.sample_rate : ℚ)
      recent_samples := pushCapped s.window_cap s.recent_samples latency_ms }
  else
    { s with
      count := count
      sample_counter := ctr
      min_ms := min_ms
      max_ms := max_ms }

/-- `recent_samples_count` property: length of the rolling window. -/
def LatencyStats.recent_samples_count (s : LatencyStats) : Nat :=
  s.recent_samples.length

/-- Record a whole list of latency samples, first sample first. -/
def LatencyStats.recordAll (s : LatencyStats) (vals : List ℚ) : LatencyStats :=
  vals.foldl LatencyStats.record s

/-- `OrderBookPairMetrics`: the per-pair counters and latency aggregates the
routing claims observe (the `perf_counter` timestamp fields carry no
counting content and are omitted from the embedding). -/
structure PairMetrics where
  trading_pair : String
  diffs_processed : Nat
  diffs_rejected : Nat
  snapshots_processed : Nat
  trades_processed : Nat
  trades_rejected : Nat
  diff_processing_latency : LatencyStats
  snapshot_processing_latency : LatencyStats
  trade_processing_latency : LatencyStats
deriving DecidableEq, Repr

/-- A fresh `OrderBookPairMetrics(trading_pair=tp, ...)` with zero counters
and default latency stats (rate 10, window 100). -/
def mkPairMetrics (tp : String) : PairMetrics :=
  { trading_pair := tp, diffs_processed := 0, diffs_rejected := 0,
    snapshots_processed := 0, trades_processed := 0, trades_rejected := 0,
    diff_processing_latency := mkLatencyStats 10 100,
    snapshot_processing_latency := mkLatencyStats 10 100,
    trade_processing_latency := mkLatencyStats 10 100 }

/-- `OrderBookTrackerMetrics`: the global counters plus the lazily grown
per-pair metrics map. -/
structure TrackerMetrics where
  total_diffs_processed : Nat
  total_diffs_rejected : Nat
  total_diffs_queued : Nat
  total_snapshots_processed : Nat
  total_snapshots_rejected : Nat
  total_trades_processed : Nat
  total_trades_rejected : Nat
  diff_processing_latency : LatencyStats
  snapshot_processing_latency : LatencyStats
  trade_processing_latency : LatencyStats
  per_pair_metrics : List (String × PairMetrics)
deriving DecidableEq, Repr

/-- A fresh `OrderBookTrackerMetrics()`. -/
def mkTrackerMetrics : TrackerMetrics :=
  { total_diffs_processed := 0, total_diffs_rejected := 0, total_diffs_queued := 0,
    total_snapshots_processed := 0, total_snapshots_rejected := 0,
    total_trades_processed := 0, total_trades_rejected := 0,
    diff_processing_latency := mkLatencyStats 10 100,
    snapshot_processing_latency := mkLatencyStats 10 100,
    trade_processing_latency := mkLatencyStats 10 100,
    per_pair_metrics := [] }

/-- `get_or_create_pair_metrics` followed by a mutation of the returned
(shared) per-pair entry: if the pair has no entry a fresh one is created
first, then `f` is applied to it in place. -/
def TrackerMetrics.modifyPair (m : TrackerMetrics) (tp : String)
    (f : PairMetrics → PairMetrics) : TrackerMetrics :=
  { m with per_pair_metrics :=
      (mset m.per_pair_metrics tp (f ((mlookup m.per_pair_metrics tp).getD (mkPairMetrics tp)))) }

/-- `remove_pair_metrics`: `per_pair_metrics.pop(trading_pair, None)`. -/
def TrackerMetrics.remove_pair_metrics (m : TrackerMetrics) (tp : String) : TrackerMetrics :=
  { m with per_pair_metrics := merase m.per_pair_metrics tp }

/-- The `diffs_rejected` counter currently visible for a pair (0 when the
pair has no metrics entry yet). -/
def TrackerMetrics.pairDiffsRejected (m : TrackerMetrics) (tp : String) : Nat :=
  ((mlookup m.per_pair_metrics tp).getD (mkPairMetrics tp)).diffs_rejected

/-- The `diffs_processed` counter currently visible for a pair. -/
def TrackerMetrics.pairDiffsProcessed (m : TrackerMetrics) (tp : String) : Nat :=
  ((mlookup m.per_pair_metrics tp).getD (mkPairMetrics tp)).diffs_processed

/-- The `snapshots_processed` counter currently visible for a pair. -/
def TrackerMetrics.pairSnapshotsProcessed (m : TrackerMetrics) (tp : String) : Nat :=
  ((mlookup m.per_pair_metrics tp).getD (mkPairMetrics tp)).snapshots_processed

/-- The mutable state of an `OrderBookTracker` that the lifecycle and routing
claims read and write: the trading-pairs list, the five per-market maps
(`_order_books`, `_tracking_message_queues` with queue contents,
`_tracking_tasks` as the set of pairs owning a live task,
`_past_diffs_windows`, `_saved_message_queues`) and the metrics.  The
`defaultdict` maps are read through `getD [] / pushCapped`, matching their
create-on-access semantics. -/
structure TrackerState where
  trading_pairs : List String
  order_books : List (String × OrderBook)
  tracking_message_queues : List (String × List OrderBookMessage)
  tracking_tasks : List String
  past_diffs_windows : List (String × List OrderBookMessage)
  saved_message_queues : List (String × List OrderBookMessage)
  metrics : TrackerMetrics
deriving DecidableEq, Repr

/-- A freshly constructed tracker (all maps empty) over the given initial
trading-pairs list. -/
def mkTracker (pairs : List String) : TrackerState :=
  { trading_pairs := pairs, order_books := [], tracking_message_queues := [],
    tracking_tasks := [], past_diffs_windows := [], saved_message_queues := [],
    metrics := mkTrackerMetrics }

/-- The pending buffer (`_saved_message_queues[tp]`) as currently visible:
empty when the defaultdict has no entry. -/
def savedOf (st : TrackerState) (tp : String) : List OrderBookMessage :=
  (mlookup st.saved_message_queues tp).getD []

/-- One iteration of `_order_book_diff_router` on one incoming diff-stream
message.  `lat` is the latency measured for this message.  If the market has
no serial queue the message lands in the pending buffer (capacity 1000) and
the queued counter increments; if the market's book rejects it
(`snapshot_uid > update_id`) the rejected counters increment; otherwise the
message is enqueued and the processed counters and latency stats update.
The branch where a serial queue exists but `_order_books[tp]` is missing
raises `KeyError` in the source, which the loop's catch-all handler swallows
leaving the state unchanged. -/
def diffRouterStep (lat : ℚ) (st : TrackerState) (msg : OrderBookMessage) : TrackerState :=
  let tp := msg.trading_pair
  match mlookup st.tracking_message_queues tp with
  | none =>
    let newMetrics :=
      { st.metrics with total_diffs_queued := st.metrics.total_diffs_queued + 1 }
    let newSaved := mset st.saved_message_queues tp (pushCapped 1000 (savedOf st tp) msg)
    { st with metrics := newMetrics, saved_message_queues := newSaved }
  | some q =>
    match mlookup st.order_books tp with
    | none => st
    | some book =>
      if msg.update_id < book.snapshot_uid then
        let newMetrics :=
          TrackerMetrics.modifyPair
            { st.metrics with total_diffs_rejected := st.metrics.total_diffs_rejected + 1 }
            tp (fun p => { p with diffs_rejected := p.diffs_rejected + 1 })
        { st with metrics := newMetrics }
      else
        let globalMetrics :=
          { st.metrics with
            total_diffs_processed := st.metrics.total_diffs_processed + 1
            diff_processing_latency := st.metrics.diff_processing_latency.record lat }
        let newMetrics :=
          TrackerMetrics.modifyPair globalMetrics tp (fun p =>
            { p with
              diffs_processed := p.diffs_processed + 1
              diff_processing_latency := p.diff_processing_latency.record lat })
        { st with
          tracking_message_queues := mset st.tracking_message_queues tp (q ++ [msg])
          metrics := newMetrics }

/-- Route a list of diff-stream messages in arrival order. -/
def routeDiffs (lat : ℚ) (st : TrackerState) (msgs : List OrderBookMessage) : TrackerState :=
  msgs.foldl (diffRouterStep lat) st

/-- One iteration of `_order_book_snapshot_router` on one incoming
snapshot-stream message: enqueue unconditionally when a serial queue exists
(there is no sequence check on this path), else count a rejection. -/
def snapshotRouterStep (lat : ℚ) (st : TrackerState) (msg : OrderBookMessage) : TrackerState :=
  let tp := msg.trading_pair
  match mlookup st.tracking_message_queues tp with
  | none =>
    let newMetrics :=
      { st.metrics with
        total_snapshots_rejected := st.metrics.total_snapshots_rejected + 1 }
    { st with metrics := newMetrics }
  | some q =>
    let globalMetrics :=
      { st.metrics with
        total_snapshots_processed := st.metrics.total_snapshots_processed + 1
        snapshot_processing_latency := st.metrics.snapshot_processing_latency.record lat }
    let newMetrics :=
      TrackerMetrics.modifyPair globalMetrics tp (fun p =>
        { p with
          snapshots_processed := p.snapshots_processed + 1
          snapshot_processing_latency := p.snapshot_processing_latency.record lat })
    { st with
      tracking_message_queues := mset st.tracking_message_queues tp (q ++ [msg])
      metrics := newMetrics }

/-- External interactions performed by the lifecycle methods: waiting on the
ready event, the data-source calls, and a tracking-task cancellation. -/
inductive DsCall
  | waitReady
  | subscribe (tp : String)
  | fetchBook (tp : String)
  | unsubscribe (tp : String)
  | cancelTask (tp : String)
deriving DecidableEq, Repr

/-- Result of an awaited data-source call: a value, or a non-cancellation
exception (`err`).  Cancellation is re-raised by every method and takes no
part in the claims, so it is not modelled as a result. -/
inductive DsResult (α : Type)
  | ok (a : α)
  | err
deriving DecidableEq, Repr

/-- The `except Exception` cleanup block of `add_trading_pair`: pop the
book and queue entries and cancel-and-pop any tracking task for the pair. -/
def addCleanup (st : TrackerState) (tp : String) : TrackerState :=
  { st with
    order_books := merase st.order_books tp
    tracking_message_queues := merase st.tracking_message_queues tp
    tracking_tasks := st.tracking_tasks.filter (fun t => t ≠ tp) }

/-- `OrderBookTracker.add_trading_pair`.  The data-source interactions are
explicit parameters: `subscribeResult` is what
`subscribe_to_trading_pair` produces, `fetchResult` what
`get_new_order_book` produces, and `taskStart` stands for any
non-cancellation exception raised while the queue and tracking task of step
4 are being created.  Returns the boolean result, the final state, and the
trace of external interactions in order. -/
def add_trading_pair (st : TrackerState) (tp : String)
    (subscribeResult : DsResult Bool) (fetchResult : DsResult OrderBook)
    (taskStart : DsResult Unit) : Bool × TrackerState × List DsCall :=
  if (mlookup st.order_books tp).isSome then
    (false, st, [])
  else
    let trace0 := [DsCall.waitReady, DsCall.subscribe tp]
    match subscribeResult with
    | .err => (false, addCleanup st tp, trace0)
    | .ok false => (false, st, trace0)
    | .ok true =>
      let pairs1 :=
        if tp ∈ st.trading_pairs then st.trading_pairs else st.trading_pairs ++ [tp]
      let st1 := { st with trading_pairs := pairs1 }
      let trace1 := trace0 ++ [DsCall.fetchBook tp]
      match fetchResult with
      | .err => (false, addCleanup st1 tp, trace1)
      | .ok book =>
        let st2 := { st1 with order_books := mset st1.order_books tp book }
        let tasks3 :=
          if tp ∈ st2.tracking_tasks then st2.tracking_tasks else st2.tracking_tasks ++ [tp]
        let st3 :=
          { st2 with
            tracking_message_queues := mset st2.tracking_message_queues tp []
            tracking_tasks := tasks3 }
        match taskStart with
        | .err => (false, addCleanup st3 tp, trace1)
        | .ok _ => (true, st3, trace1)

/-- `OrderBookTracker.remove_trading_pair`.  `unsubscribeResult` is what
`unsubscribe_from_trading_pair` produces (an `err` models a
non-cancellation exception, which the outer handler turns into a `False`
return after step 1 already ran). -/
def remove_trading_pair (st : TrackerState) (tp : String)
    (unsubscribeResult : DsResult Bool) : Bool × TrackerState × List DsCall :=
  if (mlookup st.order_books tp).isNone then
    (false, st, [])
  else
    let hadTask := tp ∈ st.tracking_tasks
    let st1 :=
      if hadTask then
        { st with tracking_tasks := st.tracking_tasks.filter (fun t => t ≠ tp) }
      else st
    let trace1 := if hadTask then [DsCall.cancelTask tp] else []
    let trace2 := trace1 ++ [DsCall.unsubscribe tp]
    match unsubscribeResult with
    | .err => (false, st1, trace2)
    | .ok _b =>
      let newMetrics := st1.metrics.remove_pair_metrics tp
      let st2 :=
        { st1 with
          order_books := merase st1.order_books tp
          tracking_message_queues := merase st1.tracking_message_queues tp
          past_diffs_windows := merase st1.past_diffs_windows tp
          saved_message_queues := merase st1.saved_message_queues tp
          metrics := newMetrics
          trading_pairs := st1.trading_pairs.erase tp }
      (true, st2, trace2)

/-- The local state of a `_track_single_book` task for one market: the book
and recent-diff window it mutates, the pending buffer
(`_saved_message_queues[tp]`) and the serial queue it consumes. -/
structure TrackState where
  book : OrderBook
  window : List OrderBookMessage
  saved : List OrderBookMessage
  queue : List OrderBookMessage
deriving DecidableEq, Repr

/-- The message-dispatch body of `_track_single_book`: a DIFF is applied to
the book and appended to the recent-diff window (capacity
`PAST_DIFF_WINDOW_SIZE = 32`); a SNAPSHOT triggers
`restore_from_snapshot_and_diffs` with the current window; any other type is
ignored by the dispatch. -/
def trackProcessOne (s : TrackState) (msg : OrderBookMessage) : TrackState :=
  match msg.mtype with
  | .diff =>
    { s with
      book := s.book.apply_diffs msg.bids msg.asks msg.update_id
      window := pushCapped 32 s.window msg }
  | .snapshot =>
    { s with book := s.book.restore_from_snapshot_and_diffs msg s.window }
  | .trade => s

/-- One iteration of the `_track_single_book` loop: take the oldest pending
message if the buffer is non-empty, else the head of the serial queue; block
(`none`) when both are empty. -/
def trackStep (s : TrackState) : Option (OrderBookMessage × TrackState) :=
  match s.saved with
  | m :: rest => some (m, trackProcessOne { s with saved := rest } m)
  | [] =>
    match s.queue with
    | m :: rest => some (m, trackProcessOne { s with queue := rest } m)
    | [] => none

/-- The sequence of messages the tracking task processes, in order, over the
given number of iterations (stopping early if it would block). -/
def trackTrace : Nat → TrackState → List OrderBookMessage
  | 0, _ => []
  | fuel + 1, s =>
    match trackStep s with
    | none => []
    | some (m, s') => m :: trackTrace fuel s'

/-- The task state after the given number of iterations (stopping early if
it would block). -/
def trackExec : Nat → TrackState → TrackState
  | 0, s => s
  | fuel + 1, s =>
    match trackStep s with
    | none => s
    | some (_, s') => trackExec fuel s'

theorem not_mem_filter_ne (l : List String) (tp : String) :
    tp ∉ l.filter (fun t => t ≠ tp) := by
  intro h
  have := List.of_mem_filter h
  simp at this

/-- C10: adding an already-tracked market is rejected without side effects —
whenever the pair already has an order-book entry, `add_trading_pair`
returns `False` immediately: the state is unchanged and the interaction
trace is empty, so the ready wait and the subscribe call never happen. -/
theorem add_trading_pair_already_tracked (st : TrackerState) (tp : String)
    (sub : DsResult Bool) (fetch : DsResult OrderBook) (task : DsResult Unit)
    (h : (mlookup st.order_books tp).isSome) :
    add_trading_pair st tp sub fetch task = (false, st, []) := by
  unfold add_trading_pair
  rw [if_pos h]

theorem add_trading_pair_already_tracked_witness :
    (mlookup (TrackerState.order_books
        { mkTracker ["BTC-USDT"] with
          order_books := [("BTC-USDT", { bids := [], asks := [], snapshot_uid := 3 })] })
        "BTC-USDT").isSome = true ∧
    add_trading_pair
        { mkTracker ["BTC-USDT"] with
          order_books := [("BTC-USDT", { bids := [], asks := [], snapshot_uid := 3 })] }
        "BTC-USDT" (.ok true) (.ok { bids := [], asks := [], snapshot_uid := 9 }) (.ok ())
      = (false,
        { mkTracker ["BTC-USDT"] with
          order_books := [("BTC-USDT", { bids := [], asks := [], snapshot_uid := 3 })] },
        []) :=
  ⟨by decide,
   add_trading_pair_already_tracked _ _ _ _ _ (by decide)⟩

/-- C7: removing an unknown market is a no-op reported as failure — when the
pair has no order-book entry, `remove_trading_pair` returns `False` with the
state untouched and an empty interaction trace (in particular no
`unsubscribe_from_trading_pair` call); the embedding is a total function, so
no exception escapes. -/
theorem remove_trading_pair_unknown (st : TrackerState) (tp : String)
    (usub : DsResult Bool) (h : mlookup st.order_books tp = none) :
    remove_trading_pair st tp usub = (false, st, []) := by
  unfold remove_trading_pair
  rw [if_pos (by simp [h])]

theorem remove_trading_pair_unknown_witness :
    mlookup (TrackerState.order_books (mkTracker ["BTC-USDT"])) "SOL-USDT" = none ∧
    remove_trading_pair (mkTracker ["BTC-USDT"]) "SOL-USDT" (.ok true)
      = (false, mkTracker ["BTC-USDT"], []) :=
  ⟨by decide, remove_trading_pair_unknown _ _ _ (by decide)⟩

/-- C3: removal leaves zero residue — whenever `remove_trading_pair`
returns `True`, the removed pair has no remaining entry in the order-books
map, the serial-queue map, the recent-diff windows, the pending buffers, or
the per-pair metrics map. -/
theorem remove_trading_pair_zero_residue (st : TrackerState) (tp : String)
    (usub : DsResult Bool) (h : (remove_trading_pair st tp usub).1 = true) :
    mlookup (remove_trading_pair st tp usub).2.1.order_books tp = none ∧
    mlookup (remove_trading_pair st tp usub).2.1.tracking_message_queues tp = none ∧
    mlookup (remove_trading_pair st tp usub).2.1.past_diffs_windows tp = none ∧
    mlookup (remove_trading_pair st tp usub).2.1.saved_message_queues tp = none ∧
    mlookup (remove_trading_pair st tp usub).2.1.metrics.per_pair_metrics tp = none := by
  unfold remove_trading_pair at h ⊢
  by_cases hb : (mlookup st.order_books tp).isNone
  · rw [if_pos hb] at h
    exact absurd h (by simp)
  · rw [if_neg hb] at h ⊢
    cases usub with
    | err => exact absurd h (by simp)
    | ok b =>
      simp only [TrackerMetrics.remove_pair_metrics]
      refine ⟨?_, ?_, ?_, ?_, ?_⟩ <;> exact mlookup_merase_self _ _

/-- A concrete fully-populated tracker used by the removal witness. -/
def removalWitnessState : TrackerState :=
  { trading_pairs := ["SOL-USDT"]
    order_books := [("SOL-USDT", { bids := [(100, 1)], asks := [], snapshot_uid := 4 })]
    tracking_message_queues := [("SOL-USDT", [])]
    tracking_tasks := ["SOL-USDT"]
    past_diffs_windows :=
      [("SOL-USDT", [{ mtype := .diff, trading_pair := "SOL-USDT", update_id := 5,
                       bids := [], asks := [] }])]
    saved_message_queues :=
      [("SOL-USDT", [{ mtype := .diff, trading_pair := "SOL-USDT", update_id := 6,
                       bids := [], asks := [] }])]
    metrics :=
      { mkTrackerMetrics with per_pair_metrics := [("SOL-USDT", mkPairMetrics "SOL-USDT")] } }

theorem remove_trading_pair_zero_residue_witness :
    (remove_trading_pair removalWitnessState "SOL-USDT" (.ok true)).1 = true ∧
    (mlookup (remove_trading_pair removalWitnessState "SOL-USDT" (.ok true)).2.1.order_books
        "SOL-USDT" = none ∧
      mlookup (remove_trading_pair removalWitnessState "SOL-USDT"
        (.ok true)).2.1.tracking_message_queues "SOL-USDT" = none ∧
      mlookup (remove_trading_pair removalWitnessState "SOL-USDT"
        (.ok true)).2.1.past_diffs_windows "SOL-USDT" = none ∧
      mlookup (remove_trading_pair removalWitnessState "SOL-USDT"
        (.ok true)).2.1.saved_message_queues "SOL-USDT" = none ∧
      mlookup (remove_trading_pair removalWitnessState "SOL-USDT"
        (.ok true)).2.1.metrics.per_pair_metrics "SOL-USDT" = none) :=
  ⟨by decide, remove_trading_pair_zero_residue _ _ _ (by decide)⟩

/-- C5: add rollback on exception — if the pair is not yet tracked, the
subscribe step succeeds, and a non-cancellation exception is then raised
while fetching the initial book (`fetch = err`) or while creating the
queue/tracking task (`task = err`), `add_trading_pair` returns `False` and
the pair has no entry in the order-books map, the serial-queue map, or the
tracking-tasks set. -/
theorem add_trading_pair_rollback (st : TrackerState) (tp : String)
    (fetch : DsResult OrderBook) (task : DsResult Unit)
    (hb : mlookup st.order_books tp = none)
    (herr : fetch = DsResult.err ∨ task = DsResult.err) :
    (add_trading_pair st tp (.ok true) fetch task).1 = false ∧
    mlookup (add_trading_pair st tp (.ok true) fetch task).2.1.order_books tp = none ∧
    mlookup (add_trading_pair st tp (.ok true) fetch task).2.1.tracking_message_queues tp
      = none ∧
    tp ∉ (add_trading_pair st tp (.ok true) fetch task).2.1.tracking_tasks := by
  unfold add_trading_pair
  rw [if_neg (by simp [hb])]
  cases fetch with
  | err =>
    exact ⟨rfl, mlookup_merase_self _ _, mlookup_merase_self _ _, not_mem_filter_ne _ _⟩
  | ok book =>
    cases task with
    | err =>
      exact ⟨rfl, mlookup_merase_self _ _, mlookup_merase_self _ _, not_mem_filter_ne _ _⟩
    | ok u =>
      rcases herr with h | h <;> exact absurd h (by simp)

theorem add_trading_pair_rollback_witness :
    mlookup (TrackerState.order_books (mkTracker [])) "SOL-USDT" = none ∧
    ((add_trading_pair (mkTracker []) "SOL-USDT" (.ok true) .err (.ok ())).1 = false ∧
      mlookup (add_trading_pair (mkTracker []) "SOL-USDT" (.ok true) .err
        (.ok ())).2.1.order_books "SOL-USDT" = none ∧
      mlookup (add_trading_pair (mkTracker []) "SOL-USDT" (.ok true) .err
        (.ok ())).2.1.tracking_message_queues "SOL-USDT" = none ∧
      "SOL-USDT" ∉ (add_trading_pair (mkTracker []) "SOL-USDT" (.ok true) .err
        (.ok ())).2.1.tracking_tasks) :=
  ⟨by decide, add_trading_pair_rollback _ _ _ _ (by decide) (Or.inl rfl)⟩

/-- C9 (implicit): the rollback of `add_trading_pair` is not atomic with
respect to the trading-pairs list — when subscribe succeeds and the
initial-book fetch raises, the call returns `False` and the book/queue/task
entries are removed, yet the pair is still in the internal trading-pairs
list, because the step-2 append is never undone. -/
theorem add_trading_pair_keeps_trading_pairs (st : TrackerState) (tp : String)
    (task : DsResult Unit) (hb : mlookup st.order_books tp = none) :
    (add_trading_pair st tp (.ok true) .err task).1 = false ∧
    tp ∈ (add_trading_pair st tp (.ok true) .err task).2.1.trading_pairs ∧
    mlookup (add_trading_pair st tp (.ok true) .err task).2.1.order_books tp = none ∧
    mlookup (add_trading_pair st tp (.ok true) .err task).2.1.tracking_message_queues tp
      = none ∧
    tp ∉ (add_trading_pair st tp (.ok true) .err task).2.1.tracking_tasks := by
  unfold add_trading_pair
  rw [if_neg (by simp [hb])]
  refine ⟨rfl, ?_, mlookup_merase_self _ _, mlookup_merase_self _ _, not_mem_filter_ne _ _⟩
  show tp ∈ (addCleanup _ tp).trading_pairs
  by_cases hp : tp ∈ st.trading_pairs
  · simp [addCleanup, hp]
  · simp [addCleanup, hp]

theorem add_trading_pair_keeps_trading_pairs_witness :
    mlookup (TrackerState.order_books (mkTracker [])) "SOL-USDT" = none ∧
    ((add_trading_pair (mkTracker []) "SOL-USDT" (.ok true) .err (.ok ())).1 = false ∧
      "SOL-USDT" ∈ (add_trading_pair (mkTracker []) "SOL-USDT" (.ok true) .err
        (.ok ())).2.1.trading_pairs ∧
      mlookup (add_trading_pair (mkTracker []) "SOL-USDT" (.ok true) .err
        (.ok ())).2.1.order_books "SOL-USDT" = none ∧
      mlookup (add_trading_pair (mkTracker []) "SOL-USDT" (.ok true) .err
        (.ok ())).2.1.tracking_message_queues "SOL-USDT" = none ∧
      "SOL-USDT" ∉ (add_trading_pair (mkTracker []) "SOL-USDT" (.ok true) .err
        (.ok ())).2.1.tracking_tasks) :=
  ⟨by decide, add_trading_pair_keeps_trading_pairs _ _ _ (by decide)⟩

theorem modifyPair_lookup_self (m : TrackerMetrics) (tp : String)
    (f : PairMetrics → PairMetrics) :
    mlookup (m.modifyPair tp f).per_pair_metrics tp
      = some (f ((mlookup m.per_pair_metrics tp).getD (mkPairMetrics tp))) := by
  unfold TrackerMetrics.modifyPair
  exact mlookup_mset_self _ _ _

/-- A snapshot-stream message with the given market and sequence id, used as
concrete input by the router witnesses. -/
def snapMsg (tp : String) (uid : Nat) : OrderBookMessage :=
  { mtype := .snapshot, trading_pair := tp, update_id := uid, bids := [], asks := [] }

/-- A diff-stream message with the given market, sequence id and bid deltas. -/
def diffMsg (tp : String) (uid : Nat) (bids : List (ℚ × ℚ)) : OrderBookMessage :=
  { mtype := .diff, trading_pair := tp, update_id := uid, bids := bids, asks := [] }

/-- C8: the snapshot router applies no sequence filtering — when the
message's market has a serial queue, the message (whatever its
`update_id`) is appended to that queue and the global and per-pair
snapshots-processed counters increment; when the market has no serial
queue, the queues are untouched and the global snapshots-rejected counter
increments. -/
theorem snapshot_router_no_sequence_filter (lat : ℚ) (st : TrackerState)
    (msg : OrderBookMessage) :
    (∀ q, mlookup st.tracking_message_queues msg.trading_pair = some q →
      mlookup (snapshotRouterStep lat st msg).tracking_message_queues msg.trading_pair
          = some (q ++ [msg]) ∧
        (snapshotRouterStep lat st msg).metrics.total_snapshots_processed
          = st.metrics.total_snapshots_processed + 1 ∧
        (snapshotRouterStep lat st msg).metrics.pairSnapshotsProcessed msg.trading_pair
          = st.metrics.pairSnapshotsProcessed msg.trading_pair + 1 ∧
        (snapshotRouterStep lat st msg).metrics.total_snapshots_rejected
          = st.metrics.total_snapshots_rejected) ∧
    (mlookup st.tracking_message_queues msg.trading_pair = none →
      (snapshotRouterStep lat st msg).tracking_message_queues
          = st.tracking_message_queues ∧
        (snapshotRouterStep lat st msg).metrics.total_snapshots_rejected
          = st.metrics.total_snapshots_rejected + 1 ∧
        (snapshotRouterStep lat st msg).metrics.total_snapshots_processed
          = st.metrics.total_snapshots_processed) := by
  constructor
  · intro q hq
    simp only [snapshotRouterStep, hq]
    refine ⟨mlookup_mset_self _ _ _, rfl, ?_, rfl⟩
    unfold TrackerMetrics.pairSnapshotsProcessed
    rw [modifyPair_lookup_self]
    simp
  · intro hq
    simp [snapshotRouterStep, hq]

theorem snapshot_router_no_sequence_filter_witness :
    (mlookup (TrackerState.tracking_message_queues removalWitnessState) "SOL-USDT"
        = some [] ∧
      mlookup (snapshotRouterStep 0 removalWitnessState
          (snapMsg "SOL-USDT" 1)).tracking_message_queues "SOL-USDT"
        = some ([] ++ [snapMsg "SOL-USDT" 1]) ∧
      (snapshotRouterStep 0 removalWitnessState
          (snapMsg "SOL-USDT" 1)).metrics.total_snapshots_processed
        = removalWitnessState.metrics.total_snapshots_processed + 1) ∧
    (mlookup (TrackerState.tracking_message_queues removalWitnessState) "BTC-USDT"
        = none ∧
      (snapshotRouterStep 0 removalWitnessState
          (snapMsg "BTC-USDT" 1)).metrics.total_snapshots_rejected
        = removalWitnessState.metrics.total_snapshots_rejected + 1) :=
  ⟨⟨by decide,
    ((snapshot_router_no_sequence_filter 0 removalWitnessState
        (snapMsg "SOL-USDT" 1)).1 [] (by decide)).1,
    ((snapshot_router_no_sequence_filter 0 removalWitnessState
        (snapMsg "SOL-USDT" 1)).1 [] (by decide)).2.1⟩,
   ⟨by decide,
    ((snapshot_router_no_sequence_filter 0 removalWitnessState
        (snapMsg "BTC-USDT" 1)).2 (by decide)).2.1⟩⟩

/-- A tracker with a live serial queue and a book at snapshot sequence 6 for
"BTC-USDT", exercising the diff router's staleness check. -/
def staleEqState : TrackerState :=
  { mkTracker ["BTC-USDT"] with
    order_books := [("BTC-USDT", { bids := [], asks := [], snapshot_uid := 6 })]
    tracking_message_queues := [("BTC-USDT", [])] }

/-- C2 counterexample: the claim says a diff with sequence id less than *or
equal to* the book's snapshot sequence is never enqueued and the rejected
counters increment.  At snapshot sequence 6 a diff with sequence id 6 (`≤`
holds with equality) *is* enqueued on the market's serial queue and neither
the global nor the per-market rejected counter changes: the router's test is
`snapshot_uid > update_id`, a strict comparison. -/
theorem diff_router_stale_equal_enqueued :
    (diffMsg "BTC-USDT" 6 []).update_id ≤ 6 ∧
    mlookup staleEqState.order_books "BTC-USDT"
      = some { bids := [], asks := [], snapshot_uid := 6 } ∧
    mlookup (diffRouterStep 0 staleEqState
        (diffMsg "BTC-USDT" 6 [])).tracking_message_queues "BTC-USDT"
      = some [diffMsg "BTC-USDT" 6 []] ∧
    (diffRouterStep 0 staleEqState (diffMsg "BTC-USDT" 6 [])).metrics.total_diffs_rejected
      = staleEqState.metrics.total_diffs_rejected ∧
    (diffRouterStep 0 staleEqState
        (diffMsg "BTC-USDT" 6 [])).metrics.pairDiffsRejected "BTC-USDT"
      = staleEqState.metrics.pairDiffsRejected "BTC-USDT" := by
  decide

/-- C2 amended: for every diff routed for a market with a live serial queue
and book, if the diff's sequence id is *strictly less than* the book's
snapshot sequence, the diff is not enqueued anywhere (the queue map is
unchanged) and both the global and the per-market rejected counters
increment by one. -/
theorem diff_router_rejects_stale (lat : ℚ) (st : TrackerState) (msg : OrderBookMessage)
    (q : List OrderBookMessage) (book : OrderBook)
    (hq : mlookup st.tracking_message_queues msg.trading_pair = some q)
    (hb : mlookup st.order_books msg.trading_pair = some book)
    (hlt : msg.update_id < book.snapshot_uid) :
    (diffRouterStep lat st msg).tracking_message_queues = st.tracking_message_queues ∧
    (diffRouterStep lat st msg).metrics.total_diffs_rejected
      = st.metrics.total_diffs_rejected + 1 ∧
    (diffRouterStep lat st msg).metrics.pairDiffsRejected msg.trading_pair
      = st.metrics.pairDiffsRejected msg.trading_pair + 1 := by
  unfold TrackerMetrics.pairDiffsRejected
  simp [diffRouterStep, hq, hb, hlt, modifyPair_lookup_self, TrackerMetrics.modifyPair,
    mlookup_mset_self]

theorem diff_router_rejects_stale_witness :
    mlookup staleEqState.tracking_message_queues "BTC-USDT" = some [] ∧
    mlookup staleEqState.order_books "BTC-USDT"
      = some { bids := [], asks := [], snapshot_uid := 6 } ∧
    (diffMsg "BTC-USDT" 5 []).update_id < 6 ∧
    ((diffRouterStep 0 staleEqState (diffMsg "BTC-USDT" 5 [])).tracking_message_queues
        = staleEqState.tracking_message_queues ∧
      (diffRouterStep 0 staleEqState
          (diffMsg "BTC-USDT" 5 [])).metrics.total_diffs_rejected
        = staleEqState.metrics.total_diffs_rejected + 1 ∧
      (diffRouterStep 0 staleEqState
          (diffMsg "BTC-USDT" 5 [])).metrics.pairDiffsRejected "BTC-USDT"
        = staleEqState.metrics.pairDiffsRejected "BTC-USDT" + 1) :=
  ⟨by decide, by decide, by decide,
   diff_router_rejects_stale 0 staleEqState (diffMsg "BTC-USDT" 5 []) []
     { bids := [], asks := [], snapshot_uid := 6 } (by decide) (by decide) (by decide)⟩

theorem record_step (s : LatencyStats) (v : ℚ) (R W N : Nat) (hR : 1 ≤ R)
    (hrate : s.sample_rate = R) (hcap : s.window_cap = W)
    (hc : s.count = N) (hk : s.sample_counter = N % R)
    (hl : s.recent_samples.length = min (N / R) W) :
    (s.record v).sample_rate = R ∧ (s.record v).window_cap = W ∧
    (s.record v).count = N + 1 ∧ (s.record v).sample_counter = (N + 1) % R ∧
    (s.record v).recent_samples.length = min ((N + 1) / R) W := by
  have hmod : N % R < R := Nat.mod_lt _ (by omega)
  unfold LatencyStats.record
  by_cases hcond : s.sample_rate ≤ s.sample_counter + 1
  · have hEq : N % R + 1 = R := by omega
    have hzero : (N + 1) % R = 0 := by
      rw [Nat.add_mod]
      rcases Nat.lt_or_ge 1 R with h1 | h1
      · rw [Nat.mod_eq_of_lt h1, hEq, Nat.mod_self]
      · have hone : R = 1 := by omega
        simp [hone, Nat.mod_one]
    have hdiv : (N + 1) / R = N / R + 1 :=
      Nat.succ_div_of_dvd (Nat.dvd_of_mod_eq_zero hzero)
    rw [if_pos hcond]
    refine ⟨hrate, hcap, by simp [hc], by simp [hzero], ?_⟩
    simp only [pushCapped_length, hl, hcap, hdiv]
    omega
  · have hLt : N % R + 1 < R := by omega
    have h2 : 1 < R := by omega
    have hmod1 : (N + 1) % R = N % R + 1 := by
      rw [Nat.add_mod, Nat.mod_eq_of_lt h2, Nat.mod_eq_of_lt (by omega)]
    have hnd : ¬ R ∣ N + 1 := by
      intro hd
      have h0 : (N + 1) % R = 0 := Nat.mod_eq_zero_of_dvd hd
      omega
    have hdiv : (N + 1) / R = N / R := Nat.succ_div_of_not_dvd hnd
    rw [if_neg hcond]
    exact ⟨hrate, hcap, by simp [hc], by simp [hk, hmod1], by simp [hl, hdiv]⟩

theorem recordAll_invariant (R W : Nat) (hR : 1 ≤ R) (vals : List ℚ) :
    ∀ (N : Nat) (s : LatencyStats), s.sample_rate = R → s.window_cap = W →
      s.count = N → s.sample_counter = N % R →
      s.recent_samples.length = min (N / R) W →
      (s.recordAll vals).count = N + vals.length ∧
      (s.recordAll vals).recent_samples.length = min ((N + vals.length) / R) W := by
  induction vals with
  | nil =>
      intro N s h1 h2 h3 h4 h5
      simpa [LatencyStats.recordAll] using ⟨h3, h5⟩
  | cons v rest ih =>
      intro N s h1 h2 h3 h4 h5
      have step := record_step s v R W N hR h1 h2 h3 h4 h5
      have main :=
        ih (N + 1) (s.record v) step.1 step.2.1 step.2.2.1 step.2.2.2.1 step.2.2.2.2
      have hfold : s.recordAll (v :: rest) = (s.record v).recordAll rest := rfl
      rw [hfold]
      refine ⟨?_, ?_⟩
      · rw [main.1]
        simp
        omega
      · rw [main.2]
        have : N + 1 + rest.length = N + (rest.length + 1) := by omega
        simp [this]

/-- C6: metrics sampling preserves count — for every sample rate `R ≥ 1` and
rolling-window capacity `W`, after recording a list of latency samples on a
fresh `LatencyStats`, `count` equals the number of samples while
`recent_samples_count` equals `min (N / R) W` (integer division), matching
the claim's `min(N // R, W)`; the defaults are `R = 10`, `W = 100`. -/
theorem latency_sampling_preserves_count (R W : Nat) (vals : List ℚ) (hR : 1 ≤ R) :
    ((mkLatencyStats R W).recordAll vals).count = vals.length ∧
    ((mkLatencyStats R W).recordAll vals).recent_samples_count
      = min (vals.length / R) W := by
  have h := recordAll_invariant R W hR vals 0 (mkLatencyStats R W) rfl rfl rfl
    (by simp [mkLatencyStats]) (by simp [mkLatencyStats])
  unfold LatencyStats.recent_samples_count
  simpa using h

theorem latency_sampling_preserves_count_witness :
    (1 ≤ 10 ∧
      ((mkLatencyStats 10 100).recordAll (List.replicate 25 (1 : ℚ))).count = 25 ∧
      ((mkLatencyStats 10 100).recordAll
          (List.replicate 25 (1 : ℚ))).recent_samples_count = 2) := by
  have h := latency_sampling_preserves_count 10 100 (List.replicate 25 (1 : ℚ))
    (by decide)
  refine ⟨by decide, ?_, ?_⟩
  · simpa using h.1
  · simpa using h.2

theorem trackProcessOne_saved_queue (t : TrackState) (m : OrderBookMessage) :
    (trackProcessOne t m).saved = t.saved ∧ (trackProcessOne t m).queue = t.queue := by
  cases m with
  | mk mt tp uid b a => cases mt <;> exact ⟨rfl, rfl⟩

theorem trackTrace_eq (fuel : Nat) :
    ∀ (s : TrackState), s.saved.length + s.queue.length ≤ fuel →
      trackTrace fuel s = s.saved ++ s.queue := by
  induction fuel with
  | zero =>
      intro s h
      have hs : s.saved = [] := List.length_eq_zero.mp (by omega)
      have hq : s.queue = [] := List.length_eq_zero.mp (by omega)
      simp [trackTrace, hs, hq]
  | succ fuel ih =>
      intro s h
      match hsv : s.saved with
      | m :: rest =>
          have hstep : trackStep s = some (m, trackProcessOne { s with saved := rest } m) := by
            unfold trackStep
            rw [hsv]
          have hsq := trackProcessOne_saved_queue { s with saved := rest } m
          have hlen : (trackProcessOne { s with saved := rest } m).saved.length
              + (trackProcessOne { s with saved := rest } m).queue.length ≤ fuel := by
            rw [hsq.1, hsq.2]
            simp only []
            have := h
            rw [hsv] at this
            simp at this
            omega
          have := ih (trackProcessOne { s with saved := rest } m) hlen
          rw [hsq.1, hsq.2] at this
          simp only [trackTrace, hstep, this]
          simp
      | [] =>
          match hq : s.queue with
          | [] =>
              have hstep : trackStep s = none := by
                unfold trackStep
                rw [hsv, hq]
              simp [trackTrace, hstep, hsv, hq]
          | m :: rest =>
              have hstep : trackStep s
                  = some (m, trackProcessOne { s with queue := rest } m) := by
                unfold trackStep
                rw [hsv, hq]
              have hsq := trackProcessOne_saved_queue { s with queue := rest } m
              have hlen : (trackProcessOne { s with queue := rest } m).saved.length
                  + (trackProcessOne { s with queue := rest } m).queue.length ≤ fuel := by
                rw [hsq.1, hsq.2]
                have := h
                rw [hsv, hq] at this
                simp at this
                simp [hsv]
                omega
              have := ih (trackProcessOne { s with queue := rest } m) hlen
              rw [hsq.1, hsq.2] at this
              simp only [trackTrace, hstep, this]
              simp [hsv, hq]

theorem diffRouterStep_buffers (lat : ℚ) (st : TrackerState) (msg : OrderBookMessage)
    (hq : mlookup st.tracking_message_queues msg.trading_pair = none)
    (hlen : (savedOf st msg.trading_pair).length < 1000) :
    savedOf (diffRouterStep lat st msg) msg.trading_pair
      = savedOf st msg.trading_pair ++ [msg] ∧
    (diffRouterStep lat st msg).tracking_message_queues
      = st.tracking_message_queues := by
  constructor
  · simp only [diffRouterStep, hq]
    unfold savedOf
    simp only [mlookup_mset_self, Option.getD_some]
    exact pushCapped_of_lt _ _ _ hlen
  · simp [diffRouterStep, hq]

theorem routeDiffs_buffers (lat : ℚ) (msgs : List OrderBookMessage) :
    ∀ (st : TrackerState) (M : String), (∀ m ∈ msgs, m.trading_pair = M) →
      mlookup st.tracking_message_queues M = none →
      (savedOf st M).length + msgs.length ≤ 1000 →
      savedOf (routeDiffs lat st msgs) M = savedOf st M ++ msgs ∧
      mlookup (routeDiffs lat st msgs).tracking_message_queues M = none := by
  induction msgs with
  | nil =>
      intro st M _ hq _
      exact ⟨by simp [routeDiffs], hq⟩
  | cons m rest ih =>
      intro st M hall hq hlen
      simp only [List.length_cons] at hlen
      have hm : m.trading_pair = M := hall m (by simp)
      have hstep := diffRouterStep_buffers lat st m (by rw [hm]; exact hq)
        (by rw [hm]; omega)
      have hq1 : mlookup (diffRouterStep lat st m).tracking_message_queues M = none := by
        rw [hstep.2]; exact hq
      have hsaved1 : savedOf (diffRouterStep lat st m) M = savedOf st M ++ [m] := by
        rw [← hm]; exact hstep.1
      have hlen1 : (savedOf (diffRouterStep lat st m) M).length + rest.length ≤ 1000 := by
        rw [hsaved1]
        simp only [List.length_append, List.length_singleton]
        omega
      have hall1 : ∀ x ∈ rest, x.trading_pair = M := fun x hx => hall x (by simp [hx])
      have main := ih (diffRouterStep lat st m) M hall1 hq1 hlen1
      have hfold : routeDiffs lat st (m :: rest)
          = routeDiffs lat (diffRouterStep lat st m) rest := rfl
      rw [hfold, main.1, hsaved1]
      exact ⟨by simp, main.2⟩

/-- C4: no lost or reordered diffs on dynamic add — if diffs for market `M`
arrive while `M` has no serial queue (between subscribe-success and
queue-creation) and the pending buffer does not overflow its 1000-message
cap, the router appends each diff to `M`'s pending buffer in arrival order
(and creates no queue); and for any buffer contents, tracking task state and
live-queue contents, the tracking task processes the entire pending buffer
oldest-first before the first message taken from the live serial queue. -/
theorem no_lost_diffs_on_dynamic_add (lat : ℚ) (st : TrackerState) (M : String)
    (msgs : List OrderBookMessage)
    (hall : ∀ m ∈ msgs, m.trading_pair = M)
    (hq : mlookup st.tracking_message_queues M = none)
    (hlen : (savedOf st M).length + msgs.length ≤ 1000) :
    savedOf (routeDiffs lat st msgs) M = savedOf st M ++ msgs ∧
    mlookup (routeDiffs lat st msgs).tracking_message_queues M = none ∧
    ∀ (book : OrderBook) (window q : List OrderBookMessage),
      trackTrace ((savedOf (routeDiffs lat st msgs) M).length + q.length)
        { book := book, window := window,
          saved := savedOf (routeDiffs lat st msgs) M, queue := q }
      = savedOf (routeDiffs lat st msgs) M ++ q := by
  obtain ⟨h1, h2⟩ := routeDiffs_buffers lat msgs st M hall hq hlen
  exact ⟨h1, h2, fun book window q => trackTrace_eq _ _ (by simp)⟩

theorem no_lost_diffs_on_dynamic_add_witness :
    (∀ m ∈ [diffMsg "BTC-USD" 5 [(99, 2)], diffMsg "BTC-USD" 7 [(98, 3)]],
      OrderBookMessage.trading_pair m = "BTC-USD") ∧
    mlookup (TrackerState.tracking_message_queues (mkTracker [])) "BTC-USD" = none ∧
    (savedOf (mkTracker []) "BTC-USD").length + 2 ≤ 1000 ∧
    (savedOf (routeDiffs 0 (mkTracker [])
        [diffMsg "BTC-USD" 5 [(99, 2)], diffMsg "BTC-USD" 7 [(98, 3)]]) "BTC-USD"
      = savedOf (mkTracker []) "BTC-USD"
        ++ [diffMsg "BTC-USD" 5 [(99, 2)], diffMsg "BTC-USD" 7 [(98, 3)]] ∧
    trackTrace
        ((savedOf (routeDiffs 0 (mkTracker [])
            [diffMsg "BTC-USD" 5 [(99, 2)], diffMsg "BTC-USD" 7 [(98, 3)]]) "BTC-USD").length
          + [diffMsg "BTC-USD" 9 []].length)
        { book := { bids := [], asks := [], snapshot_uid := 0 }, window := [],
          saved := savedOf (routeDiffs 0 (mkTracker [])
            [diffMsg "BTC-USD" 5 [(99, 2)], diffMsg "BTC-USD" 7 [(98, 3)]]) "BTC-USD",
          queue := [diffMsg "BTC-USD" 9 []] }
      = savedOf (routeDiffs 0 (mkTracker [])
          [diffMsg "BTC-USD" 5 [(99, 2)], diffMsg "BTC-USD" 7 [(98, 3)]]) "BTC-USD"
        ++ [diffMsg "BTC-USD" 9 []]) := by
  have h := no_lost_diffs_on_dynamic_add 0 (mkTracker []) "BTC-USD"
    [diffMsg "BTC-USD" 5 [(99, 2)], diffMsg "BTC-USD" 7 [(98, 3)]]
    (by decide) (by decide) (by decide)
  exact ⟨by decide, by decide, by decide,
    h.1, h.2.2 { bids := [], asks := [], snapshot_uid := 0 } [] [diffMsg "BTC-USD" 9 []]⟩

/-- The first pre-snapshot diff of the end-to-end scenario (sequence 5). -/
def c1Diff5 : OrderBookMessage := diffMsg "BTC-USD" 5 [(99, 2)]

/-- The second pre-snapshot diff of the end-to-end scenario (sequence 7). -/
def c1Diff7 : OrderBookMessage := diffMsg "BTC-USD" 7 [(98, 3)]

/-- The initial book returned by `get_new_order_book`: snapshot at sequence 6
with the single bid (100, 1). -/
def c1SnapshotBook : OrderBook := { bids := [(100, 1)], asks := [], snapshot_uid := 6 }

/-- Scenario state after the diff router has handled the two early diffs
while "BTC-USD" is still untracked: both land in the pending buffer. -/
def c1AfterRoute : TrackerState := routeDiffs 0 (mkTracker []) [c1Diff5, c1Diff7]

/-- Scenario state after `add_trading_pair "BTC-USD"` completes with a
successful subscribe and the sequence-6 initial book. -/
def c1AfterAdd : TrackerState :=
  (add_trading_pair c1AfterRoute "BTC-USD" (.ok true) (.ok c1SnapshotBook) (.ok ())).2.1

/-- The tracking-task view of "BTC-USD" right after the add: its book,
recent-diff window, pending buffer and (empty) serial queue. -/
def c1TrackInit : TrackState :=
  { book := (mlookup c1AfterAdd.order_books "BTC-USD").getD
      { bids := [], asks := [], snapshot_uid := 0 }
    window := (mlookup c1AfterAdd.past_diffs_windows "BTC-USD").getD []
    saved := savedOf c1AfterAdd "BTC-USD"
    queue := (mlookup c1AfterAdd.tracking_message_queues "BTC-USD").getD [] }

/-- The "BTC-USD" book after the tracking task drains the pending buffer. -/
def c1FinalBook : OrderBook :=
  (trackExec (c1TrackInit.saved.length + c1TrackInit.queue.length) c1TrackInit).book

/-- C1 counterexample: in the dynamic-add scenario (diffs 5 and 7 buffered
before the sequence-6 snapshot arrives), the claim's expected final book —
snapshot with *only* diff 7 applied and diff 5 discarded — is wrong: after
the drain the final book still has `snapshotSequence = 6` but diff 5's level
(99, 2) is present, because `_track_single_book` applies buffered diffs
without any staleness check, so the final book differs from the claimed
one. -/
theorem dynamic_add_scenario_counterexample :
    (add_trading_pair c1AfterRoute "BTC-USD" (.ok true) (.ok c1SnapshotBook) (.ok ())).1
      = true ∧
    savedOf c1AfterAdd "BTC-USD" = [c1Diff5, c1Diff7] ∧
    c1FinalBook.snapshot_uid = 6 ∧
    levelSize c1FinalBook.bids 99 = some 2 ∧
    c1FinalBook
      ≠ c1SnapshotBook.apply_diffs c1Diff7.bids c1Diff7.asks c1Diff7.update_id := by
  decide

/-- C1 amended: in the same scenario the final book has
`snapshotSequence = 6` and reflects the snapshot with *both* buffered diffs
applied in arrival order — diff 5 is not discarded, since the pending-buffer
drain path performs no sequence filtering. -/
theorem dynamic_add_scenario_amended :
    c1FinalBook
      = (c1SnapshotBook.apply_diffs c1Diff5.bids c1Diff5.asks
          c1Diff5.update_id).apply_diffs c1Diff7.bids c1Diff7.asks c1Diff7.update_id ∧
    c1FinalBook.snapshot_uid = 6 ∧
    c1FinalBook.bids = [(100, 1), (99, 2), (98, 3)] := by
  decide
